import Mathlib

/-!
Verification of the mixpanel-go client library (files mixpanel.go and
ingestion.go): the payload model (Event construction and enrichment) and the
response classification of the Import and ListLookupTables operations.

JSON values are modelled by the inductive `JVal`; a Go `map[string]any`
obtained from JSON is modelled as an association list `List (String × JVal)`
with unique keys, looked up by `getProp`.  Map update (Go `m[k] = v`) is
`setProp`, which replaces the binding in place when the key is present and
appends it otherwise, so that lookup agrees with Go map semantics.  The JSON
parsing and struct binding performed by the external encoding/json library is
modelled by the decoder functions `decImportSuccess`, `decImportGenericError`,
`decImportFailedValidationError`, `decLookupTable` and `decLookupTableError`,
following the struct tags in ingestion.go: an integer field absent from the
object (or bound to null) stays at its zero value, a field of the wrong type
is a decode error, an `interface\x7b\x7d` field accepts any value, and a JSON
null decoded into a struct leaves the zero struct.
-/

namespace MixpanelGo

/-- A JSON value as delivered by the external JSON parser.  Numbers are kept
as integers: every numeric field of the structs in ingestion.go is a Go `int`,
which only ever binds to integral JSON numbers. -/
inductive JVal : Type where
  | null : JVal
  | bool (b : Bool) : JVal
  | num (n : Int) : JVal
  | str (s : String) : JVal
  | arr (elems : List JVal) : JVal
  | obj (fields : List (String × JVal)) : JVal

/-- Lookup in a Go map or JSON object modelled as an association list
(keys are unique, so the first binding is the binding). -/
def getProp : List (String × JVal) → String → Option JVal
  | [], _ => none
  | (k, v) :: rest, key => if k = key then some v else getProp rest key

/-- Go map update `m[k] = v`: replace the binding in place when present,
append it otherwise. -/
def setProp : List (String × JVal) → String → JVal → List (String × JVal)
  | [], key, v => [(key, v)]
  | (k, w) :: rest, key, v =>
    if k = key then (key, v) :: rest else (k, w) :: setProp rest key v

theorem getProp_setProp_self (m : List (String × JVal)) (k : String) (v : JVal) :
    getProp (setProp m k v) k = some v := by
  induction m with
  | nil => simp [setProp, getProp]
  | cons hd tl ih =>
    obtain ⟨k0, v0⟩ := hd
    by_cases h : k0 = k
    · simp [setProp, h, getProp]
    · simp [setProp, h, getProp, ih]

theorem getProp_setProp_ne (m : List (String × JVal)) (k k2 : String) (v : JVal)
    (h : k2 ≠ k) : getProp (setProp m k v) k2 = getProp m k2 := by
  have hne : ¬k = k2 := Ne.symm h
  induction m with
  | nil => simp [setProp, getProp, hne]
  | cons hd tl ih =>
    obtain ⟨k0, v0⟩ := hd
    by_cases h0 : k0 = k
    · subst h0
      simp [setProp, getProp, hne]
    · simp only [setProp, h0, if_false, getProp]
      by_cases h2 : k0 = k2 <;> simp [h2, ih]

theorem setProp_setProp_self (m : List (String × JVal)) (k : String) (v1 v2 : JVal) :
    setProp (setProp m k v1) k v2 = setProp m k v2 := by
  induction m with
  | nil => simp [setProp]
  | cons hd tl ih =>
    obtain ⟨k0, v0⟩ := hd
    by_cases h : k0 = k
    · simp [setProp, h]
    · simp [setProp, h, ih]

/-! ## Constants of mixpanel.go -/

def version : String := "v0.0.1"

def EmptyDistinctID : String := ""

def propertyToken : String := "token"

def propertyDistinctID : String := "distinct_id"

def propertyIP : String := "ip"

def propertyInsertID : String := "$insert_id"

def propertyTime : String := "time"

def propertyMpLib : String := "mp_lib"

def goLib : String := "go"

def propertyLibVersion : String := "$lib_version"

/-! ## The client configuration (struct Mixpanel) -/

/-- The immutable parts of the Mixpanel client configuration that the claims
touch: the numeric project identifier and the ingestion token. -/
structure Mixpanel where
  projectID : Int
  token : String

/-! ## The payload model (struct Event and its constructors) -/

/-- A mixpanel event: a name and a properties mapping (JSON tags `event` and
`properties`). -/
structure Event where
  Name : String
  Properties : List (String × JVal)

/-- NewEvent from mixpanel.go: a nil caller map (modelled `Option.none`) is
replaced by a fresh empty map, then the four reserved keys are set, in source
order: token, distinct_id, mp_lib, $lib_version. -/
def Mixpanel.NewEvent (m : Mixpanel) (name : String) (distinctID : String)
    (properties : Option (List (String × JVal))) : Event :=
  let p0 := properties.getD []
  let p1 := setProp p0 propertyToken (JVal.str m.token)
  let p2 := setProp p1 propertyDistinctID (JVal.str distinctID)
  let p3 := setProp p2 propertyMpLib (JVal.str goLib)
  let p4 := setProp p3 propertyLibVersion (JVal.str version)
  { Name := name, Properties := p4 }

/-- The local construction error of NewEventFromJson (errors.New in the
source; the error taxonomy of the spec calls it MalformedEvent). -/
structure MalformedEvent where
  msg : String

/-- NewEventFromJson from mixpanel.go: two type assertions, first that the
`event` field is a string, then that the `properties` field is a map; the
returned Event takes both fields verbatim. -/
def Mixpanel.NewEventFromJson (_ : Mixpanel) (json : List (String × JVal)) :
    Except MalformedEvent Event :=
  match getProp json "event" with
  | some (JVal.str name) =>
    match getProp json "properties" with
    | some (JVal.obj properties) => Except.ok { Name := name, Properties := properties }
    | _ => Except.error ⟨"event properties is not a map or is missing"⟩
  | _ => Except.error ⟨"event name is not a string or is missing"⟩

/-- JSON serialization of an Event per its struct tags (`event`,
`properties`), as the external JSON library produces it, at the level of the
untyped map. -/
def eventToJson (e : Event) : List (String × JVal) :=
  [("event", JVal.str e.Name), ("properties", JVal.obj e.Properties)]

/-! ## Enrichment helpers (AddTime, AddInsertID, AddIP) -/

/-- A wall-clock instant as Go time.Time carries it: whole seconds since the
epoch and a non-negative nanosecond offset below one second. -/
structure MpTime where
  sec : Int
  nsec : Nat

/-- UnixMilli from the Go time package: seconds times 1000 plus the
nanosecond part divided by one million. -/
def MpTime.UnixMilli (t : MpTime) : Int :=
  t.sec * 1000 + (t.nsec : Int) / 1000000

/-- AddTime from mixpanel.go: sets the `time` property to UnixMilli of the
argument.  The Go method mutates in place; the model returns the updated
event. -/
def Event.AddTime (e : Event) (t : MpTime) : Event :=
  { e with Properties := setProp e.Properties propertyTime (JVal.num t.UnixMilli) }

/-- AddInsertID from mixpanel.go: sets the `$insert_id` property. -/
def Event.AddInsertID (e : Event) (insertID : String) : Event :=
  { e with Properties := setProp e.Properties propertyInsertID (JVal.str insertID) }

/-- A network address as the net package renders it: only its textual form
(net.IP.String) matters to the library. -/
structure NetIP where
  text : String

/-- String from the net package, modelled by the stored textual form. -/
def NetIP.render (ip : NetIP) : String := ip.text

/-- AddIP from mixpanel.go: sets the `ip` property to the textual form of the
address. -/
def Event.AddIP (e : Event) (ip : NetIP) : Event :=
  { e with Properties := setProp e.Properties propertyIP (JVal.str (ip.render)) }

/-! ## IdentityEvent -/

/-- IdentityEvent from mixpanel.go: wraps an Event. -/
structure IdentityEvent where
  event : Event

/-- SetIdentifiedId from mixpanel.go. -/
def IdentityEvent.SetIdentifiedId (i : IdentityEvent) (id : String) : IdentityEvent :=
  ⟨{ i.event with Properties := setProp i.event.Properties "$identified_id" (JVal.str id) }⟩

/-- SetAnonId from mixpanel.go. -/
def IdentityEvent.SetAnonId (i : IdentityEvent) (id : String) : IdentityEvent :=
  ⟨{ i.event with Properties := setProp i.event.Properties "$anon_id" (JVal.str id) }⟩

/-- NewIdentityEvent from mixpanel.go: NewEvent with name `$identify`, then
SetIdentifiedId, then SetAnonId. -/
def Mixpanel.NewIdentityEvent (m : Mixpanel) (distinctID : String)
    (properties : Option (List (String × JVal))) (identifiedId anonId : String) :
    IdentityEvent :=
  ((⟨m.NewEvent "$identify" distinctID properties⟩ : IdentityEvent).SetIdentifiedId
      identifiedId).SetAnonId anonId

/-! ## Import options and query parameters (ingestion.go) -/

/-- MpCompression from mixpanel.go. -/
inductive MpCompression : Type where
  | NoneC : MpCompression
  | GzipC : MpCompression

/-- ImportOptions from ingestion.go. -/
structure ImportOptions where
  Strict : Bool
  Compression : MpCompression

/-- An ordered multiset of query parameters, as the url.Values built in
ingestion.go: Add appends a key-value pair. -/
abbrev QueryValues : Type := List (String × String)

/-- url.Values.Add: appends the pair. -/
def QueryValues.add (vs : QueryValues) (key value : String) : QueryValues :=
  vs ++ [(key, value)]

/-- The query parameters the Import operation builds (ingestion.go, the start
of Import): strict from options.Strict, project_id via strconv.Itoa (decimal
string form, modelled by toString on Int), verbose=1. -/
def Mixpanel.importQueryValues (m : Mixpanel) (options : ImportOptions) : QueryValues :=
  let values : QueryValues := []
  let values :=
    if options.Strict then values.add "strict" "1" else values.add "strict" "0"
  let values := values.add "project_id" (toString m.projectID)
  values.add "verbose" "1"

/-! ## Response body decoding (modelling encoding/json on the result structs) -/

/-- ImportSuccess from ingestion.go: fields code, num_records_imported,
status (an `interface\x7b\x7d`, hence any JSON value). -/
structure ImportSuccess where
  Code : Int
  NumRecordsImported : Int
  Status : JVal

/-- ImportGenericError from ingestion.go: fields code, error, status. -/
structure ImportGenericError where
  Code : Int
  ApiError : String
  Status : JVal

/-- ImportFailedRecords from ingestion.go: fields index, insert_id, field,
message. -/
structure ImportFailedRecords where
  Index : Int
  InsertID : Int
  Field : String
  Message : String

/-- ImportFailedValidationError from ingestion.go: fields code, error,
status, num_records_imported, failed_records. -/
structure ImportFailedValidationError where
  Code : Int
  ApiError : String
  Status : JVal
  NumRecordsImported : Int
  FailedImportRecords : List ImportFailedRecords

/-- LookupTableResults from ingestion.go: fields id, name. -/
structure LookupTableResults where
  ID : String
  Name : String

/-- LookupTable from ingestion.go: fields code, status (a string here),
results. -/
structure LookupTable where
  Code : Int
  Status : String
  Results : List LookupTableResults

/-- LookupTableError from ingestion.go: fields code, error, status. -/
structure LookupTableError where
  Code : Int
  ApiError : String
  Status : JVal

/-- Binding a JSON object field to a Go int field: absent or null leaves the
zero value, an integral number binds, anything else is a decode error. -/
def fieldInt (fields : List (String × JVal)) (key : String) : Option Int :=
  match getProp fields key with
  | none => some 0
  | some JVal.null => some 0
  | some (JVal.num n) => some n
  | some _ => none

/-- Binding a JSON object field to a Go string field: absent or null leaves
the empty string, a string binds, anything else is a decode error. -/
def fieldStr (fields : List (String × JVal)) (key : String) : Option String :=
  match getProp fields key with
  | none => some ""
  | some JVal.null => some ""
  | some (JVal.str s) => some s
  | some _ => none

/-- Binding a JSON object field to a Go `interface\x7b\x7d` field: any value
binds; absent or null leaves the nil interface, modelled as JSON null. -/
def fieldAny (fields : List (String × JVal)) (key : String) : JVal :=
  match getProp fields key with
  | none => JVal.null
  | some JVal.null => JVal.null
  | some v => v

/-- Decoding one failed_records element (encoding/json into
ImportFailedRecords): null leaves the zero struct, an object binds field by
field, anything else is a decode error. -/
def decFailedRecord : JVal → Option ImportFailedRecords
  | JVal.null => some ⟨0, 0, "", ""⟩
  | JVal.obj fields => do
    let i ← fieldInt fields "index"
    let ins ← fieldInt fields "insert_id"
    let f ← fieldStr fields "field"
    let msg ← fieldStr fields "message"
    some ⟨i, ins, f, msg⟩
  | _ => none

/-- Binding a JSON object field to the failed_records slice: absent or null
leaves an empty slice, an array decodes element-wise, anything else is a
decode error. -/
def fieldRecords (fields : List (String × JVal)) (key : String) :
    Option (List ImportFailedRecords) :=
  match getProp fields key with
  | none => some []
  | some JVal.null => some []
  | some (JVal.arr elems) => elems.mapM decFailedRecord
  | some _ => none

/-- Decoding one results element (encoding/json into LookupTableResults). -/
def decLookupResult : JVal → Option LookupTableResults
  | JVal.null => some ⟨"", ""⟩
  | JVal.obj fields => do
    let i ← fieldStr fields "id"
    let n ← fieldStr fields "name"
    some ⟨i, n⟩
  | _ => none

/-- Binding a JSON object field to the results slice of LookupTable. -/
def fieldResults (fields : List (String × JVal)) (key : String) :
    Option (List LookupTableResults) :=
  match getProp fields key with
  | none => some []
  | some JVal.null => some []
  | some (JVal.arr elems) => elems.mapM decLookupResult
  | some _ => none

/-- encoding/json decoding of a response body into ImportSuccess. -/
def decImportSuccess : JVal → Option ImportSuccess
  | JVal.null => some ⟨0, 0, JVal.null⟩
  | JVal.obj fields => do
    let c ← fieldInt fields "code"
    let n ← fieldInt fields "num_records_imported"
    some ⟨c, n, fieldAny fields "status"⟩
  | _ => none

/-- encoding/json decoding of a response body into ImportGenericError. -/
def decImportGenericError : JVal → Option ImportGenericError
  | JVal.null => some ⟨0, "", JVal.null⟩
  | JVal.obj fields => do
    let c ← fieldInt fields "code"
    let e ← fieldStr fields "error"
    some ⟨c, e, fieldAny fields "status"⟩
  | _ => none

/-- encoding/json decoding of a response body into
ImportFailedValidationError. -/
def decImportFailedValidationError : JVal → Option ImportFailedValidationError
  | JVal.null => some ⟨0, "", JVal.null, 0, []⟩
  | JVal.obj fields => do
    let c ← fieldInt fields "code"
    let e ← fieldStr fields "error"
    let n ← fieldInt fields "num_records_imported"
    let recs ← fieldRecords fields "failed_records"
    some ⟨c, e, fieldAny fields "status", n, recs⟩
  | _ => none

/-- encoding/json decoding of a response body into LookupTable. -/
def decLookupTable : JVal → Option LookupTable
  | JVal.null => some ⟨0, "", []⟩
  | JVal.obj fields => do
    let c ← fieldInt fields "code"
    let s ← fieldStr fields "status"
    let rs ← fieldResults fields "results"
    some ⟨c, s, rs⟩
  | _ => none

/-- encoding/json decoding of a response body into LookupTableError. -/
def decLookupTableError : JVal → Option LookupTableError
  | JVal.null => some ⟨0, "", JVal.null⟩
  | JVal.obj fields => do
    let c ← fieldInt fields "code"
    let e ← fieldStr fields "error"
    some ⟨c, e, fieldAny fields "status"⟩
  | _ => none

/-! ## Response classification (the status-code switches of ingestion.go) -/

/-- A delivered HTTP response: the status code and the body, already run
through the external JSON parser; `Option.none` is a body that is not valid
JSON. -/
structure MpResponse where
  StatusCode : Nat
  Body : Option JVal

/-- The outcome of the Import operation once a response arrived (the switch
at the end of Import in ingestion.go).  decodeError stands for the wrapped
error a failing json.Decoder.Decode call returns; it is a constructor of its
own, distinct from every API-reported error. -/
inductive ImportResult : Type where
  | success (s : ImportSuccess) : ImportResult
  | failedValidation (e : ImportFailedValidationError) : ImportResult
  | genericError (e : ImportGenericError) : ImportResult
  | decodeError : ImportResult
  | unexpectedStatus (code : Nat) : ImportResult

/-- The status-code switch of Import (ingestion.go): 200 decodes
ImportSuccess, 400 decodes ImportFailedValidationError, 401, 413 and 429
decode ImportGenericError, anything else is the unexpected-status error;
every decode failure is the decode error. -/
def importClassify (resp : MpResponse) : ImportResult :=
  if resp.StatusCode = 200 then
    match resp.Body.bind decImportSuccess with
    | some s => ImportResult.success s
    | none => ImportResult.decodeError
  else if resp.StatusCode = 400 then
    match resp.Body.bind decImportFailedValidationError with
    | some e => ImportResult.failedValidation e
    | none => ImportResult.decodeError
  else if resp.StatusCode = 401 ∨ resp.StatusCode = 413 ∨ resp.StatusCode = 429 then
    match resp.Body.bind decImportGenericError with
    | some e => ImportResult.genericError e
    | none => ImportResult.decodeError
  else
    ImportResult.unexpectedStatus resp.StatusCode

/-- True exactly on the outcomes that report an API-side rejection (a typed
error decoded from the body). -/
def ImportResult.isApiError : ImportResult → Bool
  | ImportResult.failedValidation _ => true
  | ImportResult.genericError _ => true
  | _ => false

/-- The outcome of the ListLookupTables operation once a response arrived
(the switch at the end of ListLookupTables in ingestion.go). -/
inductive LookupResult : Type where
  | success (t : LookupTable) : LookupResult
  | lookupError (e : LookupTableError) : LookupResult
  | decodeError : LookupResult
  | unexpectedStatus (code : Nat) : LookupResult

/-- The status-code switch of ListLookupTables (ingestion.go): 200 decodes
LookupTable, 401 decodes LookupTableError, anything else is the
unexpected-status error; every decode failure is the decode error. -/
def lookupClassify (resp : MpResponse) : LookupResult :=
  if resp.StatusCode = 200 then
    match resp.Body.bind decLookupTable with
    | some t => LookupResult.success t
    | none => LookupResult.decodeError
  else if resp.StatusCode = 401 then
    match resp.Body.bind decLookupTableError with
    | some e => LookupResult.lookupError e
    | none => LookupResult.decodeError
  else
    LookupResult.unexpectedStatus resp.StatusCode

/-- True exactly on the outcomes that report an API-side rejection. -/
def LookupResult.isApiError : LookupResult → Bool
  | LookupResult.lookupError _ => true
  | _ => false

/-- Shape test used to state the malformed-event condition: the value under
a key is a JSON string. -/
def isStringVal : Option JVal → Bool
  | some (JVal.str _) => true
  | _ => false

/-- Shape test used to state the malformed-event condition: the value under
a key is a JSON object (a mapping). -/
def isObjVal : Option JVal → Bool
  | some (JVal.obj _) => true
  | _ => false

/-- Stated from the words of the spec, for comparison with the code: the kind
taxonomy the spec assigns to API-reported errors of the Import operation. -/
inductive ApiKind : Type where
  | validation : ApiKind
  | unauthorized : ApiKind
  | payloadTooLarge : ApiKind
  | rateLimited : ApiKind

/-! ## Helper lemmas -/

/-- Complete lookup characterisation of the properties NewEvent builds. -/
theorem getProp_NewEvent (m : Mixpanel) (name distinctID : String)
    (properties : Option (List (String × JVal))) (k : String) :
    getProp (m.NewEvent name distinctID properties).Properties k =
      if k = propertyLibVersion then some (JVal.str version)
      else if k = propertyMpLib then some (JVal.str goLib)
      else if k = propertyDistinctID then some (JVal.str distinctID)
      else if k = propertyToken then some (JVal.str m.token)
      else getProp (properties.getD []) k := by
  simp only [Mixpanel.NewEvent]
  by_cases h4 : k = propertyLibVersion
  · simp [h4, getProp_setProp_self]
  · rw [getProp_setProp_ne _ _ _ _ h4, if_neg h4]
    by_cases h3 : k = propertyMpLib
    · simp [h3, getProp_setProp_self]
    · rw [getProp_setProp_ne _ _ _ _ h3, if_neg h3]
      by_cases h2 : k = propertyDistinctID
      · simp [h2, getProp_setProp_self]
      · rw [getProp_setProp_ne _ _ _ _ h2, if_neg h2]
        by_cases h1 : k = propertyToken
        · simp [h1, getProp_setProp_self]
        · rw [getProp_setProp_ne _ _ _ _ h1, if_neg h1]

/-! ## The claims -/

/-- C3: for every name, distinctID and caller-supplied properties map (a nil
map included), the Event NewEvent returns carries the four reserved
properties, with the library values overriding whatever the caller put under
those keys. -/
theorem NewEvent_reserved_overrides (m : Mixpanel) (name distinctID : String)
    (properties : Option (List (String × JVal))) :
    getProp (m.NewEvent name distinctID properties).Properties propertyToken
        = some (JVal.str m.token) ∧
    getProp (m.NewEvent name distinctID properties).Properties propertyDistinctID
        = some (JVal.str distinctID) ∧
    getProp (m.NewEvent name distinctID properties).Properties propertyMpLib
        = some (JVal.str goLib) ∧
    getProp (m.NewEvent name distinctID properties).Properties propertyLibVersion
        = some (JVal.str version) := by
  refine ⟨?_, ?_, ?_, ?_⟩ <;> rw [getProp_NewEvent]
  · rw [if_neg (by decide), if_neg (by decide), if_neg (by decide), if_pos rfl]
  · rw [if_neg (by decide), if_neg (by decide), if_pos rfl]
  · rw [if_neg (by decide), if_pos rfl]
  · rw [if_pos rfl]

/-- C10: NewEvent with a nil properties map allocates a fresh mapping whose
bindings are exactly the four reserved keys, in the order the source sets
them, and nothing else. -/
theorem NewEvent_nilProperties (m : Mixpanel) (name distinctID : String) :
    (m.NewEvent name distinctID Option.none).Properties =
      [(propertyToken, JVal.str m.token),
       (propertyDistinctID, JVal.str distinctID),
       (propertyMpLib, JVal.str goLib),
       (propertyLibVersion, JVal.str version)] := by
  rfl

/-- C7: after AddTime t, the time property holds the millisecond-epoch
integer of t, that is the nanosecond timestamp truncated (floored) to
milliseconds. -/
theorem AddTime_millis (e : Event) (t : MpTime) :
    getProp (e.AddTime t).Properties propertyTime = some (JVal.num t.UnixMilli) ∧
    t.UnixMilli = (t.sec * 1000000000 + (t.nsec : Int)) / 1000000 := by
  constructor
  · simp [Event.AddTime, getProp_setProp_self]
  · show t.sec * 1000 + (t.nsec : Int) / 1000000 = _
    omega

/-- C8: each enrichment helper is idempotent per key: a second call with the
last argument alone gives the same properties mapping, the reserved key is
overwritten in place, and every other key is untouched (complete lookup
characterisation, no hypothesis). -/
theorem enrichment_idempotent (e : Event) (t1 t2 : MpTime) (i1 i2 : String)
    (p1 p2 : NetIP) (k : String) :
    ((e.AddTime t1).AddTime t2 = e.AddTime t2) ∧
    ((e.AddInsertID i1).AddInsertID i2 = e.AddInsertID i2) ∧
    ((e.AddIP p1).AddIP p2 = e.AddIP p2) ∧
    (getProp (e.AddTime t1).Properties k =
      if k = propertyTime then some (JVal.num t1.UnixMilli)
      else getProp e.Properties k) ∧
    (getProp (e.AddInsertID i1).Properties k =
      if k = propertyInsertID then some (JVal.str i1)
      else getProp e.Properties k) ∧
    (getProp (e.AddIP p1).Properties k =
      if k = propertyIP then some (JVal.str p1.render)
      else getProp e.Properties k) := by
  refine ⟨?_, ?_, ?_, ?_, ?_, ?_⟩
  · simp [Event.AddTime, setProp_setProp_self]
  · simp [Event.AddInsertID, setProp_setProp_self]
  · simp [Event.AddIP, setProp_setProp_self]
  · by_cases h : k = propertyTime
    · simp [Event.AddTime, h, getProp_setProp_self]
    · rw [if_neg h]
      exact getProp_setProp_ne _ _ _ _ h
  · by_cases h : k = propertyInsertID
    · simp [Event.AddInsertID, h, getProp_setProp_self]
    · rw [if_neg h]
      exact getProp_setProp_ne _ _ _ _ h
  · by_cases h : k = propertyIP
    · simp [Event.AddIP, h, getProp_setProp_self]
    · rw [if_neg h]
      exact getProp_setProp_ne _ _ _ _ h

/-- C5: parsing back the untyped map the JSON serialization of an Event
produces succeeds and recovers the very same Event (same name, same
properties mapping). -/
theorem NewEventFromJson_roundTrip (m : Mixpanel) (e : Event) :
    m.NewEventFromJson (eventToJson e) = Except.ok e := by
  cases e
  rfl

/-- C6: NewEventFromJson fails (with the MalformedEvent error) exactly when
the event field is not a string or the properties field is not a mapping, and
otherwise returns the Event made of exactly those two fields. -/
theorem NewEventFromJson_malformed_iff (m : Mixpanel) (raw : List (String × JVal)) :
    ((∃ err, m.NewEventFromJson raw = Except.error err) ↔
      (isStringVal (getProp raw "event") = false ∨
       isObjVal (getProp raw "properties") = false)) ∧
    (∀ name fields, getProp raw "event" = some (JVal.str name) →
      getProp raw "properties" = some (JVal.obj fields) →
      m.NewEventFromJson raw = Except.ok { Name := name, Properties := fields }) := by
  constructor
  · rcases h1 : getProp raw "event" with _ | v1
    · simp [Mixpanel.NewEventFromJson, h1, isStringVal]
    · cases v1 <;> simp [Mixpanel.NewEventFromJson, h1, isStringVal, isObjVal] <;>
        rcases h2 : getProp raw "properties" with _ | v2 <;>
          first
          | simp [h2, isObjVal]
          | (cases v2 <;> simp [h2, isObjVal])
  · intro name fields h1 h2
    simp [Mixpanel.NewEventFromJson, h1, h2]

/-- C9: the Import operation attaches exactly the three query parameters
strict (1 when Strict, else 0), project_id (the decimal string form of the
configured project id) and verbose=1, and nothing else. -/
theorem importQueryValues_exact (m : Mixpanel) (options : ImportOptions) :
    m.importQueryValues options =
      [("strict", if options.Strict then "1" else "0"),
       ("project_id", toString m.projectID),
       ("verbose", "1")] := by
  cases hs : options.Strict
  · simp [Mixpanel.importQueryValues, QueryValues.add, hs]
  · simp [Mixpanel.importQueryValues, QueryValues.add, hs]

/-- A concrete client configuration for the closed instances below. -/
def mpDemo : Mixpanel := { projectID := 117, token := "demo-token" }

/-- C4 counterexample: NewEventFromJson is a construction path of the
library, yet on the well-formed raw map with empty properties it returns an
Event whose properties contain neither the project token nor a distinct
identifier. -/
theorem NewEventFromJson_no_token_cex :
    mpDemo.NewEventFromJson [("event", JVal.str "signup"), ("properties", JVal.obj [])]
        = Except.ok { Name := "signup", Properties := [] } ∧
    getProp (Event.Properties { Name := "signup", Properties := [] }) propertyToken
        = Option.none ∧
    getProp (Event.Properties { Name := "signup", Properties := [] }) propertyDistinctID
        = Option.none := by
  exact ⟨rfl, rfl, rfl⟩

/-- C4 amended: Events built by NewEvent and NewIdentityEvent always carry
the project token and a distinct identifier after construction;
NewEventFromJson returns the properties field of the raw map verbatim, so its
Event carries them exactly when the raw map already did. -/
theorem construction_token_distinct (m : Mixpanel) (name distinctID : String)
    (properties : Option (List (String × JVal))) (identifiedId anonId : String)
    (raw : List (String × JVal)) (e : Event) :
    (getProp (m.NewEvent name distinctID properties).Properties propertyToken
        = some (JVal.str m.token) ∧
     getProp (m.NewEvent name distinctID properties).Properties propertyDistinctID
        = some (JVal.str distinctID)) ∧
    (getProp (m.NewIdentityEvent distinctID properties identifiedId anonId).event.Properties
          propertyToken = some (JVal.str m.token) ∧
     getProp (m.NewIdentityEvent distinctID properties identifiedId anonId).event.Properties
          propertyDistinctID = some (JVal.str distinctID)) ∧
    (m.NewEventFromJson raw = Except.ok e →
      getProp raw "properties" = some (JVal.obj e.Properties)) := by
  refine ⟨⟨?_, ?_⟩, ⟨?_, ?_⟩, ?_⟩
  · rw [getProp_NewEvent]
    rw [if_neg (by decide), if_neg (by decide), if_neg (by decide), if_pos rfl]
  · rw [getProp_NewEvent]
    rw [if_neg (by decide), if_neg (by decide), if_pos rfl]
  · show getProp (setProp (setProp _ "$identified_id" _) "$anon_id" _) propertyToken = _
    rw [getProp_setProp_ne _ _ _ _ (by decide), getProp_setProp_ne _ _ _ _ (by decide),
      getProp_NewEvent]
    rw [if_neg (by decide), if_neg (by decide), if_neg (by decide), if_pos rfl]
  · show getProp (setProp (setProp _ "$identified_id" _) "$anon_id" _) propertyDistinctID = _
    rw [getProp_setProp_ne _ _ _ _ (by decide), getProp_setProp_ne _ _ _ _ (by decide),
      getProp_NewEvent]
    rw [if_neg (by decide), if_neg (by decide), if_pos rfl]
  · intro h
    rcases h1 : getProp raw "event" with _ | v1 <;>
      simp [Mixpanel.NewEventFromJson, h1] at h
    cases v1 <;> simp at h <;>
      rcases h2 : getProp raw "properties" with _ | v2 <;> simp [h2] at h
    case str.some s =>
      cases v2 <;> simp at h
      case obj fields =>
        subst h
        rfl

/-- C4 amended, closed instance: the verbatim-properties part applied at a
concrete raw map, its hypothesis discharged there. -/
theorem construction_token_distinct_w :
    getProp [("event", JVal.str "x"), ("properties", JVal.obj [("token", JVal.str "t")])]
        "properties" = some (JVal.obj [("token", JVal.str "t")]) :=
  (construction_token_distinct mpDemo "x" "d" Option.none "i" "a"
      [("event", JVal.str "x"), ("properties", JVal.obj [("token", JVal.str "t")])]
      { Name := "x", Properties := [("token", JVal.str "t")] }).2.2 (by rfl)

/-- A representative well-formed generic error body. -/
def genericBody : JVal :=
  JVal.obj [("code", JVal.num 13), ("error", JVal.str "denied"), ("status", JVal.null)]

/-- C1 counterexample: the outcomes the Import classifier produces for
statuses 401, 413 and 429 on the same body are one and the same value, so no
kind function on outcomes can report unauthorized for 401, payload-too-large
for 413 and rate-limited for 429: the decoded generic error does not record
which of the three statuses occurred. -/
theorem importClassify_no_kind_cex :
    ¬ ∃ kindOf : ImportResult → ApiKind,
        kindOf (importClassify ⟨401, some genericBody⟩) = ApiKind.unauthorized ∧
        kindOf (importClassify ⟨413, some genericBody⟩) = ApiKind.payloadTooLarge ∧
        kindOf (importClassify ⟨429, some genericBody⟩) = ApiKind.rateLimited := by
  rintro ⟨f, h1, h2, -⟩
  have h : importClassify ⟨401, some genericBody⟩ = importClassify ⟨413, some genericBody⟩ :=
    rfl
  rw [h, h2] at h1
  exact ApiKind.noConfusion h1

/-- C1 amended: status 200 decodes the body as ImportSuccess; status 400
decodes it as ImportFailedValidationError carrying exactly the per-record
diagnostics present in the body; statuses 401, 413 and 429 all decode the
body as the same generic error (ImportGenericError), with no per-status kind
recorded; every other status yields the unexpected-status error carrying the
raw status code. -/
theorem importClassify_by_status (b : JVal) (s : ImportSuccess)
    (v : ImportFailedValidationError) (g : ImportGenericError)
    (fields : List (String × JVal)) (elems : List JVal)
    (recs : List ImportFailedRecords) (st : Nat) (body : Option JVal) :
    (decImportSuccess b = some s →
      importClassify ⟨200, some b⟩ = ImportResult.success s) ∧
    (decImportFailedValidationError b = some v →
      importClassify ⟨400, some b⟩ = ImportResult.failedValidation v) ∧
    (getProp fields "failed_records" = some (JVal.arr elems) →
      elems.mapM decFailedRecord = some recs →
      decImportFailedValidationError (JVal.obj fields) = some v →
      v.FailedImportRecords = recs) ∧
    (decImportGenericError b = some g →
      importClassify ⟨401, some b⟩ = ImportResult.genericError g ∧
      importClassify ⟨413, some b⟩ = ImportResult.genericError g ∧
      importClassify ⟨429, some b⟩ = ImportResult.genericError g) ∧
    (st ≠ 200 → st ≠ 400 → st ≠ 401 → st ≠ 413 → st ≠ 429 →
      importClassify ⟨st, body⟩ = ImportResult.unexpectedStatus st) := by
  refine ⟨?_, ?_, ?_, ?_, ?_⟩
  · intro h
    simp [importClassify, h]
  · intro h
    simp [importClassify, h]
  · intro hfr hmap hv
    have hrecs : fieldRecords fields "failed_records" = some recs := by
      unfold fieldRecords
      rw [hfr]
      exact hmap
    simp only [decImportFailedValidationError] at hv
    cases hc : fieldInt fields "code" <;> rw [hc] at hv <;> simp at hv
    cases he : fieldStr fields "error" <;> rw [he] at hv <;> simp at hv
    cases hn : fieldInt fields "num_records_imported" <;> rw [hn] at hv <;> simp at hv
    rw [hrecs] at hv
    simp at hv
    rw [← hv]
  · intro h
    refine ⟨?_, ?_, ?_⟩ <;> simp [importClassify, h]
  · intro h1 h2 h3 h4 h5
    simp [importClassify, h1, h2, h3, h4, h5]

/-- C1 amended, closed instance: each branch applied at a concrete status and
well-formed concrete body, every hypothesis discharged there. -/
theorem importClassify_by_status_w :
    importClassify ⟨200, some (JVal.obj [("code", JVal.num 0),
        ("num_records_imported", JVal.num 2), ("status", JVal.num 1)])⟩
      = ImportResult.success ⟨0, 2, JVal.num 1⟩ ∧
    importClassify ⟨400, some (JVal.obj [("code", JVal.num 400),
        ("error", JVal.str "bad"), ("failed_records", JVal.arr [JVal.obj
          [("index", JVal.num 0), ("insert_id", JVal.num 7),
           ("field", JVal.str "time"), ("message", JVal.str "missing")]])])⟩
      = ImportResult.failedValidation
          ⟨400, "bad", JVal.null, 0, [⟨0, 7, "time", "missing"⟩]⟩ ∧
    importClassify ⟨413, some genericBody⟩ = ImportResult.genericError ⟨13, "denied", JVal.null⟩ ∧
    importClassify ⟨302, some genericBody⟩ = ImportResult.unexpectedStatus 302 := by
  refine ⟨?_, ?_, ?_, ?_⟩
  · exact (importClassify_by_status _ ⟨0, 2, JVal.num 1⟩ ⟨400, "bad", JVal.null, 0, []⟩
      ⟨13, "denied", JVal.null⟩ [] [] [] 302 Option.none).1 (by rfl)
  · exact (importClassify_by_status (JVal.obj [("code", JVal.num 400),
        ("error", JVal.str "bad"), ("failed_records", JVal.arr [JVal.obj
          [("index", JVal.num 0), ("insert_id", JVal.num 7),
           ("field", JVal.str "time"), ("message", JVal.str "missing")]])])
      ⟨0, 2, JVal.num 1⟩ ⟨400, "bad", JVal.null, 0, [⟨0, 7, "time", "missing"⟩]⟩
      ⟨13, "denied", JVal.null⟩ [] [] [] 302 Option.none).2.1 (by rfl)
  · exact ((importClassify_by_status genericBody ⟨0, 2, JVal.num 1⟩
      ⟨400, "bad", JVal.null, 0, []⟩ ⟨13, "denied", JVal.null⟩ [] [] [] 302
      Option.none).2.2.2.1 (by rfl)).2.1
  · exact (importClassify_by_status genericBody ⟨0, 2, JVal.num 1⟩
      ⟨400, "bad", JVal.null, 0, []⟩ ⟨13, "denied", JVal.null⟩ [] [] [] 302
      (some genericBody)).2.2.2.2 (by decide) (by decide) (by decide) (by decide) (by decide)

/-- C2: on every status whose body the code decodes as JSON (200, 400, 401,
413 and 429 on Import; 200 and 401 on ListLookupTables), an unparseable body
yields the decode-error outcome, which is never one of the API-reported error
outcomes; the classifiers are total functions, so no input faults. -/
theorem malformedBody_decodeError :
    importClassify ⟨200, Option.none⟩ = ImportResult.decodeError ∧
    importClassify ⟨400, Option.none⟩ = ImportResult.decodeError ∧
    importClassify ⟨401, Option.none⟩ = ImportResult.decodeError ∧
    importClassify ⟨413, Option.none⟩ = ImportResult.decodeError ∧
    importClassify ⟨429, Option.none⟩ = ImportResult.decodeError ∧
    lookupClassify ⟨200, Option.none⟩ = LookupResult.decodeError ∧
    lookupClassify ⟨401, Option.none⟩ = LookupResult.decodeError ∧
    ImportResult.isApiError ImportResult.decodeError = false ∧
    LookupResult.isApiError LookupResult.decodeError = false ∧
    (∀ e, ImportResult.isApiError (ImportResult.failedValidation e) = true) ∧
    (∀ e, ImportResult.isApiError (ImportResult.genericError e) = true) ∧
    (∀ e, LookupResult.isApiError (LookupResult.lookupError e) = true) := by
  exact ⟨rfl, rfl, rfl, rfl, rfl, rfl, rfl, rfl, rfl,
    fun _ => rfl, fun _ => rfl, fun _ => rfl⟩

end MixpanelGo
